import Mathlib

/-!
Verification of the tutto-api client library's authorization and
endpoint-dispatch subsystem against its natural-language specification.

The definitions below are a shallow embedding of the Python sources:

* `src/tutto_api_client/models/authorization.py` — `Authorization`,
  `_Auth` and their construction checks (the generation with bearer-token
  support);
* `src/tutto_api/core/endpoints_factory.py` — `_EndpointCatalog` /
  `_EndpointFactory` (the late-bound catalog with placeholder fallback),
  together with the dataclass field layout of
  `src/tutto_api/models/endpoints.py`;
* `src/tutto_api/src/models/endpoints.py` — the endpoint request variants
  with explicit payload dictionaries and truthiness filtering.

Python truthiness of the values that occur in these payloads (strings,
integers, lists, dicts) is modelled explicitly; machine-level details that
no claim depends on (floats, `asyncio`, the HTTP socket layer) are
abstracted: the HTTP transport is a function argument, as the spec itself
treats it as an external collaborator.
-/

namespace TuttoApi

/-! ### JSON-like values and Python truthiness -/

/-- A JSON-like value as produced by the endpoint serializers: strings,
integers, arrays and string-keyed objects. -/
inductive JsonVal where
  | str (s : String)
  | int (n : Int)
  | arr (vs : List JsonVal)
  | obj (kvs : List (String × JsonVal))

/-- Python truthiness on the JSON-like values above: `""`, `0`, `[]` and
`{}` are falsy, everything else truthy. -/
def pyTruthy : JsonVal → Bool
  | .str s => s != ""
  | .int n => n != 0
  | .arr vs => !vs.isEmpty
  | .obj kvs => !kvs.isEmpty

/-- The declared zero/default value of a field per the spec's glossary:
the empty string, `0`, or the empty list. -/
def isDefaultValue (v : JsonVal) : Prop :=
  v = .str "" ∨ v = .int 0 ∨ v = .arr []

/-- Boolean form of `isDefaultValue`. -/
def isDefaultValueB : JsonVal → Bool
  | .str s => s = ""
  | .int n => n = 0
  | .arr vs => vs.isEmpty
  | .obj _ => false

theorem isDefaultValue_iff (v : JsonVal) :
    isDefaultValue v ↔ isDefaultValueB v = true := by
  cases v <;> simp [isDefaultValue, isDefaultValueB, List.isEmpty_iff]

instance : DecidablePred isDefaultValue := fun v =>
  decidable_of_iff _ (isDefaultValue_iff v).symm

/-- `dict(filter(itemgetter(1), payload.items()))`: keep the entries whose
value is truthy. -/
def filterTruthy (kvs : List (String × JsonVal)) : List (String × JsonVal) :=
  kvs.filter (fun kv => pyTruthy kv.2)

/-! ### Authorization (`src/tutto_api_client/models/authorization.py`) -/

/-- Constructor arguments of `Authorization.__init__`; every omitted
argument defaults to the empty string (`user_type` to `"external"`). -/
structure AuthorizationConfig where
  base_url : String
  user : String := ""
  user_type : String := "external"
  password : String := ""
  basic_auth_token : String := ""
  bearer_token : String := ""
deriving DecidableEq, Repr

/-- The warning text printed by `Authorization.__check_init` when both a
basic-auth token and a bearer token are supplied. -/
def warnBothTokens : String :=
  "Auth Warning: Both basic auth and bearer token were provided. Using bearer token."

/-- Outcome of `Authorization.__check_init`: a raised `ValueError`
(the spec's `ConfigurationError`), or success, possibly with the printed
warning diagnostic. -/
inductive InitOutcome where
  | error (msg : String)
  | ok (warning : Option String)
deriving DecidableEq, Repr

/-- `Authorization.__check_init`, translated clause by clause; Python's
`not s` on a string is `s = ""`, and `not (a and b)` is
`¬ (a ≠ "" ∧ b ≠ "")`. -/
def check_init (c : AuthorizationConfig) : InitOutcome :=
  if c.basic_auth_token = "" ∧ c.bearer_token = "" then
    .error "Basic auth token or bearer token are required."
  else if c.bearer_token = "" ∧ ¬ (c.user ≠ "" ∧ c.password ≠ "") then
    .error "User and password are required to get a bearer token."
  else if c.bearer_token ≠ "" ∧ c.basic_auth_token ≠ "" then
    .ok (some warnBothTokens)
  else
    .ok none

/-- One HTTP call as handed to the transport collaborator
(`HTTPRequest.request`): endpoint, method, headers and JSON body, the
latter two as string-keyed string maps. -/
structure HttpCall where
  endpoint : String
  method : String
  headers : List (String × String)
  body : List (String × String)
deriving DecidableEq, Repr

/-- The authentication request issued by `Authorization.__get_auth`:
`POST auth` with a Basic authorization header and the
`{user, password, user_type}` JSON body. -/
def authRequest (c : AuthorizationConfig) : HttpCall :=
  { endpoint := "auth"
    method := "post"
    headers := [("Content-Type", "application/json"),
                ("Authorization", "Basic " ++ c.basic_auth_token)]
    body := [("user", c.user), ("password", c.password),
             ("user_type", c.user_type)] }

/-- Response dictionary of the auth endpoint, with the exact keys that
`_Auth(**request)` expects; the three company fields arrive from the wire
as delimiter-joined strings. -/
structure AuthResponse where
  status : Int
  message : String
  type : String
  token : String
  companies : String
  companies_codes : String
  companies_names : String
deriving DecidableEq, Repr

/-- The error raised when a delimiter-joined credential field fails to
parse (the spec's `MalformedCredential`). -/
inductive CredError where
  | malformed (content : String)
deriving DecidableEq, Repr

/-- Split a character list at commas, accumulating the current piece in
reverse. -/
def splitCommaAux : List Char → List Char → List String
  | [], acc => [String.mk acc.reverse]
  | c :: rest, acc =>
    if c = ',' then String.mk acc.reverse :: splitCommaAux rest []
    else splitCommaAux rest (c :: acc)

/-- Split a string at commas (the delimiter of the wire format's joined
company lists). -/
def splitComma (s : String) : List String :=
  splitCommaAux s.data []

/-- The numeric value of a decimal digit, if the character is one. -/
def charDigit? (c : Char) : Option Nat :=
  if c.isDigit then some (c.toNat - '0'.toNat) else none

/-- The value of a non-empty all-digit character list, read in base 10. -/
def digitsVal (cs : List Char) : Option Nat :=
  cs.foldl
    (fun acc c =>
      match acc, charDigit? c with
      | some n, some d => some (n * 10 + d)
      | _, _ => Option.none)
    (if cs.isEmpty then Option.none else some 0)

/-- Parse a decimal integer with an optional leading minus sign, as
Python's `int(...)` does on the wire content of the company fields. -/
def parseInt? (s : String) : Option Int :=
  match s.data with
  | '-' :: rest => (digitsVal rest).map (fun n => -(n : Int))
  | cs => (digitsVal cs).map (fun n => (n : Int))

/-- Modelled from the spec: `split_str_to_list(values, dtype="int")` from
`tutto_api_client/utils/filter_clean_utils.py` is not among the sources.
Per the spec, a delimiter-joined string (comma-separated, as in the
`"1,2,3"` example) is parsed into a typed list, an empty source string
yields the empty list, and non-numeric content in an int-typed list field
raises `MalformedCredential`. -/
def split_str_to_list_int (s : String) : Except CredError (List Int) :=
  if s = "" then .ok []
  else (splitComma s).mapM (fun part =>
    match parseInt? part with
    | some n => .ok n
    | Option.none => .error (.malformed part))

/-- Modelled from the spec: `split_str_to_list(values, dtype="str")`;
an empty source string yields the empty list, otherwise the
comma-separated pieces are kept as strings. -/
def split_str_to_list_str (s : String) : List String :=
  if s = "" then [] else splitComma s

/-- `_Auth` after `__post_init__`: the company fields hold typed lists. -/
structure AuthCredential where
  status : Int
  message : String
  type : String
  token : String
  companies : List Int
  companies_codes : List Int
  companies_names : List String
deriving DecidableEq, Repr

/-- `_Auth(**request)` followed by `__post_init__`: parse the three
delimiter-joined company fields per their declared element types. -/
def mkAuth (r : AuthResponse) : Except CredError AuthCredential := do
  let cs ← split_str_to_list_int r.companies
  let cc ← split_str_to_list_int r.companies_codes
  let cn := split_str_to_list_str r.companies_names
  .ok { status := r.status, message := r.message, type := r.type,
        token := r.token, companies := cs, companies_codes := cc,
        companies_names := cn }

/-- The synthetic credential built by the `auth` property when a bearer
token was supplied at construction.  The code passes empty lists for the
company fields into `_Auth`; `split_str_to_list` (not among the sources)
leaves them empty per the spec's "empty company lists". -/
def syntheticCred (bearer : String) : AuthCredential :=
  { status := 0
    message := "Bearer token was user provided"
    type := "bearer"
    token := bearer
    companies := []
    companies_codes := []
    companies_names := [] }

/-- `Authorization.__get_auth`: issue the auth POST through the transport;
return the response only when its status is `200`.  The second component
logs the transport calls made. -/
def get_auth (c : AuthorizationConfig) (t : HttpCall → AuthResponse) :
    Option AuthResponse × List HttpCall :=
  let req := authRequest c
  let resp := t req
  (if resp.status = 200 then some resp else none, [req])

/-- The `Authorization.auth` property: with a bearer token pinned, return
the synthetic credential without touching the transport; otherwise
authenticate once and parse the body on success, returning no credential
on any non-200 status. -/
def auth (c : AuthorizationConfig) (t : HttpCall → AuthResponse) :
    Except CredError (Option AuthCredential) × List HttpCall :=
  if c.bearer_token ≠ "" then
    (.ok (some (syntheticCred c.bearer_token)), [])
  else
    match get_auth c t with
    | (some r, log) => ((mkAuth r).map some, log)
    | (none, log) => (.ok none, log)

/-- The transport calls accumulated by `n` successive invocations of the
`auth` property (the property is re-evaluated from scratch each time). -/
def authCallLog (c : AuthorizationConfig) (t : HttpCall → AuthResponse) :
    Nat → List HttpCall
  | 0 => []
  | n + 1 => authCallLog c t n ++ (auth c t).2

/-! ### Endpoint catalog and factory
(`src/tutto_api/core/endpoints_factory.py`, field layout from
`src/tutto_api/models/endpoints.py`) -/

/-- A runtime value passed as a keyword argument or stored in the
services dictionary: `None`, a string, an integer, a list, or an opaque
service object (`HTTPRequest` / `Authorization`). -/
inductive PyVal where
  | none
  | str (s : String)
  | int (n : Int)
  | list (vs : List String)
  | service (tag : String)
deriving DecidableEq, Repr

/-- One dataclass field as the generated `__init__` sees it: its name
and its default value, when it has one. -/
structure FieldSpec where
  name : String
  default : Option PyVal
deriving DecidableEq, Repr

/-- The shape of a dataclass as instantiated by `cls(**kwargs)`: name,
whether it is an ABC with unimplemented abstract methods, and the ordered
field list (inherited fields first). -/
structure ClassSpec where
  name : String
  isAbstract : Bool
  fields : List FieldSpec
deriving DecidableEq, Repr

/-- An exception raised while constructing an endpoint object. -/
inductive PyError where
  | typeError (msg : String)
  | valueError (msg : String)
deriving DecidableEq, Repr

/-- A constructed endpoint instance: its class name and its attribute
dictionary. -/
structure PyObj where
  cls : String
  attrs : List (String × PyVal)
deriving DecidableEq, Repr

/-- `cls(**kwargs)` under CPython semantics: instantiating an ABC with an
abstract method raises `TypeError`; otherwise the generated dataclass
`__init__` raises `TypeError` on an unexpected keyword or on a missing
field that has no default, and else binds each field to the supplied
value or its default. -/
def instantiate (cls : ClassSpec) (kwargs : List (String × PyVal)) :
    Except PyError PyObj :=
  if cls.isAbstract then
    .error (.typeError ("Can't instantiate abstract class " ++ cls.name))
  else if kwargs.any (fun kv => ¬ cls.fields.any (fun fs => fs.name = kv.1)) then
    .error (.typeError (cls.name ++ ".__init__() got an unexpected keyword argument"))
  else if cls.fields.any
      (fun fs => fs.default.isNone ∧ ¬ kwargs.any (fun kv => kv.1 = fs.name)) then
    .error (.typeError (cls.name ++ ".__init__() missing required arguments"))
  else
    .ok { cls := cls.name
          attrs := cls.fields.filterMap (fun fs =>
            match kwargs.lookup fs.name with
            | some v => some (fs.name, v)
            | Option.none => fs.default.map (fun d => (fs.name, d))) }

/-- The two fields every endpoint dataclass inherits from the abstract
`Endpoint` base: `http_client` and `authorization`, both `init=True` and
without defaults. -/
def endpointBaseFields : List FieldSpec :=
  [⟨"http_client", Option.none⟩, ⟨"authorization", Option.none⟩]

/-- The abstract `Endpoint` dataclass itself (its `call` method is
`@abstractmethod`). -/
def endpointAbc : ClassSpec :=
  { name := "Endpoint", isAbstract := true, fields := endpointBaseFields }

/-- `_Deductions` field layout. -/
def deductionsClass : ClassSpec :=
  { name := "_Deductions", isAbstract := false
    fields := endpointBaseFields ++
      [⟨"reference", Option.none⟩, ⟨"type", some (.str "")⟩,
       ⟨"start_date", some (.str "")⟩, ⟨"end_date", some (.str "")⟩,
       ⟨"id", some (.int 0)⟩] }

/-- `_Purchases` field layout. -/
def purchasesClass : ClassSpec :=
  { name := "_Purchases", isAbstract := false
    fields := endpointBaseFields ++
      [⟨"reference", Option.none⟩, ⟨"type", some (.str "")⟩,
       ⟨"start_date", some (.str "")⟩, ⟨"end_date", some (.str "")⟩,
       ⟨"id", some (.int 0)⟩] }

/-- `_ServiceTypes` field layout (only the inherited fields). -/
def serviceTypesClass : ClassSpec :=
  { name := "_ServiceTypes", isAbstract := false, fields := endpointBaseFields }

/-- `_DirfInfos` field layout. -/
def dirfInfosClass : ClassSpec :=
  { name := "_DirfInfos", isAbstract := false
    fields := endpointBaseFields ++
      [⟨"reference", Option.none⟩, ⟨"layout", some (.str "")⟩,
       ⟨"company_id", some (.int 0)⟩, ⟨"type", some (.str "")⟩,
       ⟨"start_date", some (.str "")⟩, ⟨"end_date", some (.str "")⟩,
       ⟨"id", some (.int 0)⟩] }

/-- `_DirfAdditionalInfos` field layout. -/
def dirfAdditionalInfosClass : ClassSpec :=
  { name := "_DirfAdditionalInfos", isAbstract := false
    fields := endpointBaseFields ++
      [⟨"reference", Option.none⟩, ⟨"layout", some (.str "")⟩,
       ⟨"company_id", some (.int 0)⟩, ⟨"type", some (.str "")⟩,
       ⟨"start_date", some (.str "")⟩, ⟨"end_date", some (.str "")⟩,
       ⟨"id", some (.int 0)⟩] }

/-- `_Employees` field layout: all 45 scalar fields are required, the two
nested lists default to empty. -/
def employeesClass : ClassSpec :=
  { name := "_Employees", isAbstract := false
    fields := endpointBaseFields ++
      (["company_code", "company_vat", "name", "badge", "vat", "id_card",
        "id_card_entity", "id_card_emission", "id_card_emission_state",
        "sus_card", "ctps_number", "pis_pasep", "mother_name", "address",
        "address_number", "complement", "neighborhood", "city", "state",
        "zipcode", "phone", "email", "personal_email", "gender",
        "marital_status", "salary", "birthday_date", "admission_date",
        "resignation_date", "experience_end_date", "status_in_payroll",
        "organizational_unit_code", "organizational_unit_name",
        "position_code", "position_name", "occupation_code",
        "occupation_name", "workplace_code", "workplace_name",
        "syndicate_name", "transfer_date", "bank_code", "bank_agency",
        "bank_account", "resignation_reason_code",
        "resignation_reason_name"].map (fun n => ⟨n, Option.none⟩)) ++
      [⟨"relatives", some (.list [])⟩, ⟨"occurrences", some (.list [])⟩] }

/-- `_EmployeesOccupations` field layout. -/
def employeesOccupationsClass : ClassSpec :=
  { name := "_EmployeesOccupations", isAbstract := false
    fields := endpointBaseFields ++
      [⟨"badge", Option.none⟩, ⟨"vat", Option.none⟩,
       ⟨"occupation_code", Option.none⟩, ⟨"company_code", some (.str "")⟩,
       ⟨"company_vat", some (.str "")⟩] }

/-- `_Occupations` field layout. -/
def occupationsClass : ClassSpec :=
  { name := "_Occupations", isAbstract := false
    fields := endpointBaseFields ++
      [⟨"code", Option.none⟩, ⟨"name", Option.none⟩,
       ⟨"description", Option.none⟩, ⟨"points", Option.none⟩,
       ⟨"company_code", some (.str "")⟩, ⟨"company_vat", some (.str "")⟩] }

/-- `_ServiceTickets` field layout. -/
def serviceTicketsClass : ClassSpec :=
  { name := "_ServiceTickets", isAbstract := false
    fields := endpointBaseFields ++
      [⟨"employee_badge", Option.none⟩, ⟨"employee_vat", Option.none⟩,
       ⟨"employee_email", Option.none⟩, ⟨"title", Option.none⟩,
       ⟨"description", Option.none⟩, ⟨"service_type_id", Option.none⟩] }

/-- `_EndpointCatalog.__catalog`: the static name-to-variant table. -/
def endpointCatalog : List (String × ClassSpec) :=
  [("deductions", deductionsClass),
   ("purchases", purchasesClass),
   ("service_types", serviceTypesClass),
   ("dirf_infos", dirfInfosClass),
   ("dirf_additional_infos", dirfAdditionalInfosClass),
   ("employees", employeesClass),
   ("employees_occupations", employeesOccupationsClass),
   ("occupations", occupationsClass),
   ("service_tickets", serviceTicketsClass)]

/-- `_EndpointCatalog.__services`: the late-bound services dictionary,
keyed `"http_client"` and `"authorization"`, both initialized to `None`. -/
structure Services where
  http_client : PyVal := .none
  authorization : PyVal := .none
deriving DecidableEq, Repr

/-- The services dictionary as the key-value sequence Python iterates. -/
def servicesDict (s : Services) : List (String × PyVal) :=
  [("http_client", s.http_client), ("authorization", s.authorization)]

/-- `all(_EndpointCatalog.__services)`: iterating a `dict` yields its
KEYS, so this tests the truthiness of the key strings, not of the stored
services. -/
def servicesAllCheck (s : Services) : Bool :=
  (servicesDict s).all (fun kv => kv.1 != "")

/-- `_EndpointCatalog.get_endpoint`: raise `ValueError` when the services
check fails; construct the catalog variant from the caller's keyword
arguments when the name is known; otherwise fall back to instantiating
the abstract `Endpoint` base with the stored services. -/
def get_endpoint (svc : Services) (name : String)
    (kwargs : List (String × PyVal)) : Except PyError PyObj :=
  if ¬ servicesAllCheck svc then
    .error (.valueError "Services not set. Please set all required services first")
  else
    match (endpointCatalog.lookup name) with
    | some cls => instantiate cls kwargs
    | Option.none =>
        instantiate endpointAbc
          [("http_client", svc.http_client), ("authorization", svc.authorization)]

/-- `_EndpointFactory.create_endpoint`: build an `HTTPRequest` bound to
the base URL, store it and the authorizer in the services dictionary, and
delegate to `get_endpoint` with the remaining keyword arguments. -/
def create_endpoint (base_url : String) (endpoint : String)
    (authorization : PyVal) (kwargs : List (String × PyVal)) :
    Except PyError PyObj :=
  let svc : Services :=
    { http_client := .service ("HTTPRequest(" ++ base_url ++ ")")
      authorization := authorization }
  get_endpoint svc endpoint kwargs

/-! ### Endpoint request serialization
(`src/tutto_api/src/models/endpoints.py`) -/

/-- A calendar date as carried by the `datetime.date`-typed fields. -/
structure Date where
  year : Nat
  month : Nat
  day : Nat
deriving DecidableEq, Repr

/-- Zero-pad a number to two digits. -/
def pad2 (n : Nat) : String :=
  if n < 10 then "0" ++ toString n else toString n

/-- Zero-pad a year to four digits. -/
def pad4 (n : Nat) : String :=
  if n < 10 then "000" ++ toString n
  else if n < 100 then "00" ++ toString n
  else if n < 1000 then "0" ++ toString n
  else toString n

/-- `date.isoformat()`: the `YYYY-MM-DD` rendering. -/
def Date.isoformat (d : Date) : String :=
  pad4 d.year ++ "-" ++ pad2 d.month ++ "-" ++ pad2 d.day

/-- Fields of the `Deductions` request. -/
structure DeductionsFields where
  reference : String
  type : String := ""
  start_date : String := ""
  end_date : String := ""
  id : Int := 0
deriving DecidableEq, Repr

/-- The `payload` dictionary built by `Deductions.call`. -/
def Deductions.payload (f : DeductionsFields) : List (String × JsonVal) :=
  [("reference", .str f.reference), ("type", .str f.type),
   ("start_date", .str f.start_date), ("end_date", .str f.end_date),
   ("id", .int f.id)]

/-- The query parameters `Deductions.call` hands to the transport:
`dict(filter(itemgetter(1), payload.items()))`. -/
def Deductions.params (f : DeductionsFields) : List (String × JsonVal) :=
  filterTruthy (Deductions.payload f)

/-- Wire path and method of `Deductions.call`. -/
def Deductions.route : String × String := ("/deductions", "get")

/-- Fields of the `Purchases` request. -/
structure PurchasesFields where
  reference : String
  type : String := ""
  start_date : String := ""
  end_date : String := ""
  id : Int := 0
deriving DecidableEq, Repr

/-- The `payload` dictionary built by `Purchases.call`. -/
def Purchases.payload (f : PurchasesFields) : List (String × JsonVal) :=
  [("reference", .str f.reference), ("type", .str f.type),
   ("start_date", .str f.start_date), ("end_date", .str f.end_date),
   ("id", .int f.id)]

/-- The query parameters `Purchases.call` hands to the transport. -/
def Purchases.params (f : PurchasesFields) : List (String × JsonVal) :=
  filterTruthy (Purchases.payload f)

/-- Wire path and method of `Purchases.call`. -/
def Purchases.route : String × String := ("/purchases", "get")

/-- Fields of the `DirfInfos` request. -/
structure DirfInfosFields where
  reference : String
  layout : String := ""
  company_id : Int := 0
  type : String := ""
  start_date : String := ""
  end_date : String := ""
  id : Int := 0
deriving DecidableEq, Repr

/-- The `payload` dictionary built by `DirfInfos.call`. -/
def DirfInfos.payload (f : DirfInfosFields) : List (String × JsonVal) :=
  [("reference", .str f.reference), ("layout", .str f.layout),
   ("company_id", .int f.company_id), ("type", .str f.type),
   ("start_date", .str f.start_date), ("end_date", .str f.end_date),
   ("id", .int f.id)]

/-- The query parameters `DirfInfos.call` hands to the transport. -/
def DirfInfos.params (f : DirfInfosFields) : List (String × JsonVal) :=
  filterTruthy (DirfInfos.payload f)

/-- Wire path and method of `DirfInfos.call`. -/
def DirfInfos.route : String × String := ("/dirf_infos", "get")

/-- The `payload` dictionary built by `DirfAdditionalInfos.call` (field
set identical to `DirfInfos`). -/
def DirfAdditionalInfos.payload (f : DirfInfosFields) :
    List (String × JsonVal) :=
  [("reference", .str f.reference), ("layout", .str f.layout),
   ("company_id", .int f.company_id), ("type", .str f.type),
   ("start_date", .str f.start_date), ("end_date", .str f.end_date),
   ("id", .int f.id)]

/-- The query parameters `DirfAdditionalInfos.call` hands to the
transport. -/
def DirfAdditionalInfos.params (f : DirfInfosFields) :
    List (String × JsonVal) :=
  filterTruthy (DirfAdditionalInfos.payload f)

/-- Wire path and method of `DirfAdditionalInfos.call`. -/
def DirfAdditionalInfos.route : String × String :=
  ("/dirf_additional_infos", "get")

/-- Fields of the `EmployeesOccupations` request. -/
structure EmployeesOccupationsFields where
  badge : String
  vat : String
  occupation_code : String
  company_code : String := ""
  company_vat : String := ""
deriving DecidableEq, Repr

/-- The `payload` dictionary built by `EmployeesOccupations.call`. -/
def EmployeesOccupations.payload (f : EmployeesOccupationsFields) :
    List (String × JsonVal) :=
  [("company_code", .str f.company_code), ("company_vat", .str f.company_vat),
   ("badge", .str f.badge), ("vat", .str f.vat),
   ("occupation_code", .str f.occupation_code)]

/-- The JSON body `EmployeesOccupations.call` hands to the transport. -/
def EmployeesOccupations.body (f : EmployeesOccupationsFields) :
    List (String × JsonVal) :=
  filterTruthy (EmployeesOccupations.payload f)

/-- Wire path and method of `EmployeesOccupations.call`. -/
def EmployeesOccupations.route : String × String :=
  ("/employees_occupations", "post")

/-- Fields of the `Occupations` request. -/
structure OccupationsFields where
  code : String
  name : String
  description : String
  points : Int
  company_code : String := ""
  company_vat : String := ""
deriving DecidableEq, Repr

/-- The `payload` dictionary built by `Occupations.call`. -/
def Occupations.payload (f : OccupationsFields) : List (String × JsonVal) :=
  [("company_code", .str f.company_code), ("company_vat", .str f.company_vat),
   ("code", .str f.code), ("name", .str f.name),
   ("description", .str f.description), ("points", .int f.points)]

/-- The JSON body `Occupations.call` hands to the transport. -/
def Occupations.body (f : OccupationsFields) : List (String × JsonVal) :=
  filterTruthy (Occupations.payload f)

/-- Wire path and method of `Occupations.call`. -/
def Occupations.route : String × String := ("/occupations", "post")

/-- Fields of the `ServiceTickets` request. -/
structure ServiceTicketsFields where
  employee_badge : String
  employee_vat : String
  employee_email : String
  title : String
  description : String
  service_type_id : Int
deriving DecidableEq, Repr

/-- The `payload` dictionary built by `ServiceTickets.call`. -/
def ServiceTickets.payload (f : ServiceTicketsFields) :
    List (String × JsonVal) :=
  [("employee_badge", .str f.employee_badge),
   ("employee_vat", .str f.employee_vat),
   ("employee_email", .str f.employee_email),
   ("title", .str f.title), ("description", .str f.description),
   ("service_type_id", .int f.service_type_id)]

/-- The JSON body `ServiceTickets.call` hands to the transport. -/
def ServiceTickets.body (f : ServiceTicketsFields) :
    List (String × JsonVal) :=
  filterTruthy (ServiceTickets.payload f)

/-- Wire path and method of `ServiceTickets.call`. -/
def ServiceTickets.route : String × String := ("/service_tickets", "post")

/-- A relative record as consumed by `Employees.call` (field names taken
from its attribute accesses). -/
structure Relative where
  name : String
  relationship : String
  birth_date : Date
  cpf : String
  rg : String
  rg_issuer : String
  rg_issuer_state : String
  rg_issuer_date : Date
deriving DecidableEq, Repr

/-- The dictionary `Employees.call` builds for one relative; both date
fields are ISO-formatted. -/
def relativeFields (r : Relative) : List (String × JsonVal) :=
  [("name", .str r.name), ("relationship", .str r.relationship),
   ("birth_date", .str r.birth_date.isoformat), ("cpf", .str r.cpf),
   ("rg", .str r.rg), ("rg_issuer", .str r.rg_issuer),
   ("rg_issuer_state", .str r.rg_issuer_state),
   ("rg_issuer_date", .str r.rg_issuer_date.isoformat)]

/-- An occurrence record as consumed by `Employees.call`. -/
structure Occurrence where
  type : String
  start_date : Date
  end_date : Date
  absence_reason_code : String
  absence_reason_name : String
deriving DecidableEq, Repr

/-- The dictionary `Employees.call` builds for one occurrence; both date
fields are ISO-formatted. -/
def occurrenceFields (o : Occurrence) : List (String × JsonVal) :=
  [("type", .str o.type), ("start_date", .str o.start_date.isoformat),
   ("end_date", .str o.end_date.isoformat),
   ("absence_reason_code", .str o.absence_reason_code),
   ("absence_reason_name", .str o.absence_reason_name)]

/-- Fields of the `Employees` request: 45 required scalars (`salary`, a
float in the source, is modelled as an integer since nothing in the
payload rules depends on its numeric representation) and the two nested
lists defaulting to empty. -/
structure EmployeesFields where
  company_code : String
  company_vat : String
  name : String
  badge : String
  vat : String
  id_card : String
  id_card_entity : String
  id_card_emission : Date
  id_card_emission_state : String
  sus_card : String
  ctps_number : String
  pis_pasep : String
  mother_name : String
  address : String
  address_number : String
  complement : String
  neighborhood : String
  city : String
  state : String
  zipcode : String
  phone : String
  email : String
  personal_email : String
  gender : String
  marital_status : String
  salary : Int
  birthday_date : Date
  admission_date : Date
  resignation_date : Date
  experience_end_date : Date
  status_in_payroll : String
  organizational_unit_code : String
  organizational_unit_name : String
  position_code : String
  position_name : String
  occupation_code : String
  occupation_name : String
  workplace_code : String
  workplace_name : String
  syndicate_name : String
  transfer_date : Date
  bank_code : String
  bank_agency : String
  bank_account : String
  resignation_reason_code : String
  resignation_reason_name : String
  relatives : List Relative := []
  occurrences : List Occurrence := []
deriving DecidableEq, Repr

/-- The JSON body built by `Employees.call`: every field, the six
date-typed scalars ISO-formatted, and the two comprehensions
`[... for x in xs if xs]` (the guard tests the whole list, so it filters
nothing out of a non-empty list and an empty list yields `[]`). -/
def Employees.body (f : EmployeesFields) : List (String × JsonVal) :=
  [("company_code", .str f.company_code),
   ("company_vat", .str f.company_vat),
   ("name", .str f.name),
   ("badge", .str f.badge),
   ("vat", .str f.vat),
   ("id_card", .str f.id_card),
   ("id_card_entity", .str f.id_card_entity),
   ("id_card_emission", .str f.id_card_emission.isoformat),
   ("id_card_emission_state", .str f.id_card_emission_state),
   ("sus_card", .str f.sus_card),
   ("ctps_number", .str f.ctps_number),
   ("pis_pasep", .str f.pis_pasep),
   ("mother_name", .str f.mother_name),
   ("address", .str f.address),
   ("address_number", .str f.address_number),
   ("complement", .str f.complement),
   ("neighborhood", .str f.neighborhood),
   ("city", .str f.city),
   ("state", .str f.state),
   ("zipcode", .str f.zipcode),
   ("phone", .str f.phone),
   ("email", .str f.email),
   ("personal_email", .str f.personal_email),
   ("gender", .str f.gender),
   ("marital_status", .str f.marital_status),
   ("salary", .int f.salary),
   ("birthday_date", .str f.birthday_date.isoformat),
   ("admission_date", .str f.admission_date.isoformat),
   ("resignation_date", .str f.resignation_date.isoformat),
   ("experience_end_date", .str f.experience_end_date.isoformat),
   ("status_in_payroll", .str f.status_in_payroll),
   ("organizational_unit_code", .str f.organizational_unit_code),
   ("organizational_unit_name", .str f.organizational_unit_name),
   ("position_code", .str f.position_code),
   ("position_name", .str f.position_name),
   ("occupation_code", .str f.occupation_code),
   ("occupation_name", .str f.occupation_name),
   ("workplace_code", .str f.workplace_code),
   ("workplace_name", .str f.workplace_name),
   ("syndicate_name", .str f.syndicate_name),
   ("transfer_date", .str f.transfer_date.isoformat),
   ("bank_code", .str f.bank_code),
   ("bank_agency", .str f.bank_agency),
   ("bank_account", .str f.bank_account),
   ("resignation_reason_code", .str f.resignation_reason_code),
   ("resignation_reason_name", .str f.resignation_reason_name),
   ("relatives",
     .arr ((f.relatives.filter (fun _ => !f.relatives.isEmpty)).map
       (fun r => .obj (relativeFields r)))),
   ("occurrences",
     .arr ((f.occurrences.filter (fun _ => !f.occurrences.isEmpty)).map
       (fun o => .obj (occurrenceFields o))))]

/-- Wire path and method of `Employees.call`. -/
def Employees.route : String × String := ("/employees", "post")

/-- The fixed key sequence of the `Employees` body. -/
def employeesBodyKeys : List String :=
  ["company_code", "company_vat", "name", "badge", "vat", "id_card",
   "id_card_entity", "id_card_emission", "id_card_emission_state",
   "sus_card", "ctps_number", "pis_pasep", "mother_name", "address",
   "address_number", "complement", "neighborhood", "city", "state",
   "zipcode", "phone", "email", "personal_email", "gender",
   "marital_status", "salary", "birthday_date", "admission_date",
   "resignation_date", "experience_end_date", "status_in_payroll",
   "organizational_unit_code", "organizational_unit_name",
   "position_code", "position_name", "occupation_code",
   "occupation_name", "workplace_code", "workplace_name",
   "syndicate_name", "transfer_date", "bank_code", "bank_agency",
   "bank_account", "resignation_reason_code", "resignation_reason_name",
   "relatives", "occurrences"]

/-! ## Helper lemmas -/

theorem mem_filterTruthy (kvs : List (String × JsonVal)) (k : String)
    (v : JsonVal) :
    (k, v) ∈ filterTruthy kvs ↔ (k, v) ∈ kvs ∧ pyTruthy v = true := by
  simp [filterTruthy, List.mem_filter]

/-- A payload value of string or integer shape. -/
def scalarShaped (v : JsonVal) : Prop :=
  (∃ s, v = .str s) ∨ (∃ n, v = .int n)

theorem pyTruthy_iff_not_default (v : JsonVal) (h : scalarShaped v) :
    pyTruthy v = true ↔ ¬ isDefaultValue v := by
  rcases h with ⟨s, rfl⟩ | ⟨n, rfl⟩ <;>
    simp [pyTruthy, isDefaultValue]

/-- On a payload whose values are all strings or integers, the truthiness
filter keeps exactly the entries whose value differs from its declared
zero value, unchanged. -/
theorem filterTruthy_eq_non_default (kvs : List (String × JsonVal))
    (h : ∀ kv ∈ kvs, scalarShaped kv.2) (k : String) (v : JsonVal) :
    (k, v) ∈ filterTruthy kvs ↔ (k, v) ∈ kvs ∧ ¬ isDefaultValue v := by
  rw [mem_filterTruthy]
  constructor
  · rintro ⟨hm, ht⟩
    exact ⟨hm, (pyTruthy_iff_not_default v (h _ hm)).mp ht⟩
  · rintro ⟨hm, hd⟩
    exact ⟨hm, (pyTruthy_iff_not_default v (h _ hm)).mpr hd⟩

theorem filter_const_of_nonempty {α : Type} (xs : List α) :
    xs.filter (fun _ => !xs.isEmpty) = xs := by
  cases xs <;> simp

/-! ## Claims about `Authorization` construction and `auth` -/

/-- C3: `Authorization.__check_init` raises its `ValueError`
(`ConfigurationError`) exactly when either no token at all is supplied,
or the bearer token is absent and user/password are not both supplied;
and it succeeds with the printed warning exactly when both a basic-auth
and a bearer token are supplied. -/
theorem check_init_error_iff (c : AuthorizationConfig) :
    ((∃ m, check_init c = .error m) ↔
      ((c.basic_auth_token = "" ∧ c.bearer_token = "") ∨
       (c.bearer_token = "" ∧ ¬ (c.user ≠ "" ∧ c.password ≠ "")))) ∧
    ((c.basic_auth_token ≠ "" ∧ c.bearer_token ≠ "") ↔
      check_init c = .ok (some warnBothTokens)) := by
  unfold check_init
  split_ifs with h1 h2 h3 <;> constructor <;> simp <;> tauto

/-- A configuration supplying no credential at all. -/
def cfgTokenless : AuthorizationConfig := { base_url := "https://x" }

/-- A configuration supplying both a basic-auth and a bearer token. -/
def cfgBothTokens : AuthorizationConfig :=
  { base_url := "https://x", user := "u", password := "p",
    basic_auth_token := "B", bearer_token := "T" }

/-- A configuration with basic-auth credentials only (no bearer token). -/
def cfgBasicOnly : AuthorizationConfig :=
  { base_url := "https://x", user := "u", password := "p",
    basic_auth_token := "B" }

/-- A transport answering every call with the given response. -/
def constTransport (r : AuthResponse) : HttpCall → AuthResponse := fun _ => r

/-- A successful auth response. -/
def resp200 : AuthResponse := ⟨200, "ok", "external", "T", "1,2", "3", "A"⟩

/-- A rejected auth response. -/
def resp500 : AuthResponse := ⟨500, "denied", "", "", "", "", ""⟩

/-- C3 witness: with neither token the constructor rejects, and with both
tokens it succeeds and surfaces the warning. -/
theorem check_init_error_iff_witness :
    (∃ m, check_init cfgTokenless = .error m) ∧
    check_init cfgBothTokens = .ok (some warnBothTokens) := by
  refine ⟨((check_init_error_iff cfgTokenless).1).mpr ?_, ?_⟩
  · exact Or.inl ⟨rfl, rfl⟩
  · exact ((check_init_error_iff cfgBothTokens).2).mp ⟨by decide, by decide⟩

/-- C4: with a bearer token pinned at construction (whatever the
basic-auth token is), every evaluation of the `auth` property returns the
synthetic credential — status `0`, the user-supplied tag
(`type = "bearer"`, message `"Bearer token was user provided"`), the
pinned token, empty company lists — and performs no transport call. -/
theorem auth_bearer_pinned (c : AuthorizationConfig)
    (t : HttpCall → AuthResponse) (h : c.bearer_token ≠ "") :
    auth c t =
      (.ok (some { status := 0, message := "Bearer token was user provided",
                   type := "bearer", token := c.bearer_token,
                   companies := [], companies_codes := [],
                   companies_names := [] }), []) := by
  simp [auth, h, syntheticCred]

/-- C4 witness: a configuration carrying both a basic-auth and a bearer
token yields the bearer-based synthetic credential with an empty
transport log. -/
theorem auth_bearer_pinned_witness :
    auth cfgBothTokens (constTransport resp500) =
      (.ok (some { status := 0, message := "Bearer token was user provided",
                   type := "bearer", token := "T", companies := [],
                   companies_codes := [], companies_names := [] }), []) :=
  auth_bearer_pinned cfgBothTokens (constTransport resp500) (by decide)

/-- C5: without a pinned bearer token, the `auth` property is never
cached — `n` invocations issue exactly `n` identical fresh requests, each
a `POST` to the `auth` path. -/
theorem auth_not_cached (c : AuthorizationConfig)
    (t : HttpCall → AuthResponse) (h : c.bearer_token = "") (n : Nat) :
    authCallLog c t n = List.replicate n (authRequest c) ∧
    (authRequest c).method = "post" ∧ (authRequest c).endpoint = "auth" := by
  refine ⟨?_, rfl, rfl⟩
  induction n with
  | zero => rfl
  | succ k ih =>
      have hlog : (auth c t).2 = [authRequest c] := by
        unfold auth get_auth
        rw [if_neg (by simp [h])]
        by_cases hs : (t (authRequest c)).status = 200 <;> simp [hs]
      rw [authCallLog, ih, hlog, List.replicate_succ']

/-- C5 witness: two invocations with a basic-auth-only configuration log
two transport round trips. -/
theorem auth_not_cached_witness :
    authCallLog cfgBasicOnly (constTransport resp200) 2 =
      List.replicate 2 (authRequest cfgBasicOnly) :=
  (auth_not_cached cfgBasicOnly (constTransport resp200) rfl 2).1

/-- C6: without a pinned bearer token, a 200 response is parsed into a
credential, and any other status yields `none` (no credential) without
raising. -/
theorem auth_non_200_swallowed (c : AuthorizationConfig)
    (t : HttpCall → AuthResponse) (h : c.bearer_token = "") :
    ((t (authRequest c)).status = 200 →
      (auth c t).1 = (mkAuth (t (authRequest c))).map some) ∧
    ((t (authRequest c)).status ≠ 200 → (auth c t).1 = .ok Option.none) := by
  constructor <;> intro hs <;>
    simp [auth, h, get_auth, hs]

/-- C6 witness: a 500 response yields `ok none`; a 200 response yields
the parsed credential. -/
theorem auth_non_200_swallowed_witness :
    (auth cfgBasicOnly (constTransport resp500)).1 = .ok Option.none ∧
    (auth cfgBasicOnly (constTransport resp200)).1 =
      (mkAuth resp200).map some := by
  constructor
  · exact (auth_non_200_swallowed cfgBasicOnly
      (constTransport resp500) rfl).2 (by decide)
  · exact (auth_non_200_swallowed cfgBasicOnly
      (constTransport resp200) rfl).1 rfl

/-- C7: credential construction parses each delimiter-joined company
field per its declared element type — `"1,2,3"` becomes `[1, 2, 3]`, the
empty string becomes the empty list, and non-numeric content in an
int-typed field raises `MalformedCredential`. -/
theorem credential_parsing_cases :
    mkAuth { status := 200, message := "ok", type := "external",
             token := "T", companies := "1,2,3", companies_codes := "",
             companies_names := "A,B" } =
      .ok { status := 200, message := "ok", type := "external",
            token := "T", companies := [1, 2, 3], companies_codes := [],
            companies_names := ["A", "B"] } ∧
    mkAuth { status := 200, message := "ok", type := "external",
             token := "T", companies := "1,a,3", companies_codes := "",
             companies_names := "" } =
      .error (.malformed "a") :=
  ⟨rfl, rfl⟩

/-! ## Claims about the endpoint catalog and factory -/

/-- The services dictionary before any `set_services` call: both slots
still hold `None`. -/
def unsetServices : Services := { http_client := .none, authorization := .none }

/-- C1 (code bug): for a supported endpoint name the factory constructs
the variant from the caller's keyword arguments only — it never passes
the stored `http_client`/`authorization`, yet every variant inherits
those two required `init` fields from `Endpoint`, so construction raises
`TypeError` instead of returning a bound request object. -/
theorem create_supported_endpoint_raises :
    create_endpoint "https://x" "deductions" (.service "Authorization")
        [("reference", .str "202301")] =
      .error (.typeError "_Deductions.__init__() missing required arguments") := by
  rfl

/-- C2 (code bug): for an unknown endpoint name the fallback path
instantiates the abstract `Endpoint` dataclass, whose `call` method is an
`@abstractmethod`, so CPython raises `TypeError` instead of returning the
documented inert placeholder. -/
theorem create_unknown_endpoint_raises :
    create_endpoint "https://x" "unknown_endpoint"
        (.service "Authorization") [] =
      .error (.typeError "Can't instantiate abstract class Endpoint") := by
  rfl

/-- C10 (code bug): the guard `if not all(__services)` iterates the
dictionary's keys, which are the non-empty strings `"http_client"` and
`"authorization"`, so it holds for every services state and the
`ValueError` (`ServiceNotConfigured`) is unreachable: with both services
still unset, obtaining an endpoint proceeds past the guard and fails with
a different error. -/
theorem services_guard_never_fires :
    (∀ svc : Services, servicesAllCheck svc = true) ∧
    get_endpoint unsetServices "service_types" [] =
      .error (.typeError "_ServiceTypes.__init__() missing required arguments") ∧
    get_endpoint unsetServices "unknown_endpoint" [] =
      .error (.typeError "Can't instantiate abstract class Endpoint") := by
  exact ⟨fun svc => rfl, rfl, rfl⟩

/-! ## Claims about request serialization -/

theorem deductions_payload_scalar (f : DeductionsFields) :
    ∀ kv ∈ Deductions.payload f, scalarShaped kv.2 := by
  intro kv h
  fin_cases h <;> simp [scalarShaped]

theorem purchases_payload_scalar (f : PurchasesFields) :
    ∀ kv ∈ Purchases.payload f, scalarShaped kv.2 := by
  intro kv h
  fin_cases h <;> simp [scalarShaped]

theorem dirfInfos_payload_scalar (f : DirfInfosFields) :
    ∀ kv ∈ DirfInfos.payload f, scalarShaped kv.2 := by
  intro kv h
  fin_cases h <;> simp [scalarShaped]

theorem dirfAdditionalInfos_payload_scalar (f : DirfInfosFields) :
    ∀ kv ∈ DirfAdditionalInfos.payload f, scalarShaped kv.2 := by
  intro kv h
  fin_cases h <;> simp [scalarShaped]

theorem employeesOccupations_payload_scalar (f : EmployeesOccupationsFields) :
    ∀ kv ∈ EmployeesOccupations.payload f, scalarShaped kv.2 := by
  intro kv h
  fin_cases h <;> simp [scalarShaped]

theorem occupations_payload_scalar (f : OccupationsFields) :
    ∀ kv ∈ Occupations.payload f, scalarShaped kv.2 := by
  intro kv h
  fin_cases h <;> simp [scalarShaped]

theorem serviceTickets_payload_scalar (f : ServiceTicketsFields) :
    ∀ kv ∈ ServiceTickets.payload f, scalarShaped kv.2 := by
  intro kv h
  fin_cases h <;> simp [scalarShaped]

/-- C8: for every GET variant with parameters and every POST variant
except `Employees`, the serialized wire payload contains an entry exactly
when the corresponding payload field differs from its declared zero value
(empty string, `0`, empty list), and every retained entry is unchanged. -/
theorem wire_payload_omits_exactly_defaults
    (f1 : DeductionsFields) (f2 : PurchasesFields) (f3 f4 : DirfInfosFields)
    (f5 : EmployeesOccupationsFields) (f6 : OccupationsFields)
    (f7 : ServiceTicketsFields) (k : String) (v : JsonVal) :
    ((k, v) ∈ Deductions.params f1 ↔
      (k, v) ∈ Deductions.payload f1 ∧ ¬ isDefaultValue v) ∧
    ((k, v) ∈ Purchases.params f2 ↔
      (k, v) ∈ Purchases.payload f2 ∧ ¬ isDefaultValue v) ∧
    ((k, v) ∈ DirfInfos.params f3 ↔
      (k, v) ∈ DirfInfos.payload f3 ∧ ¬ isDefaultValue v) ∧
    ((k, v) ∈ DirfAdditionalInfos.params f4 ↔
      (k, v) ∈ DirfAdditionalInfos.payload f4 ∧ ¬ isDefaultValue v) ∧
    ((k, v) ∈ EmployeesOccupations.body f5 ↔
      (k, v) ∈ EmployeesOccupations.payload f5 ∧ ¬ isDefaultValue v) ∧
    ((k, v) ∈ Occupations.body f6 ↔
      (k, v) ∈ Occupations.payload f6 ∧ ¬ isDefaultValue v) ∧
    ((k, v) ∈ ServiceTickets.body f7 ↔
      (k, v) ∈ ServiceTickets.payload f7 ∧ ¬ isDefaultValue v) :=
  ⟨filterTruthy_eq_non_default _ (deductions_payload_scalar f1) k v,
   filterTruthy_eq_non_default _ (purchases_payload_scalar f2) k v,
   filterTruthy_eq_non_default _ (dirfInfos_payload_scalar f3) k v,
   filterTruthy_eq_non_default _ (dirfAdditionalInfos_payload_scalar f4) k v,
   filterTruthy_eq_non_default _ (employeesOccupations_payload_scalar f5) k v,
   filterTruthy_eq_non_default _ (occupations_payload_scalar f6) k v,
   filterTruthy_eq_non_default _ (serviceTickets_payload_scalar f7) k v⟩

/-- C9: the `Employees` POST body always carries its full fixed key set,
the six date-typed scalars ISO-formatted, nested relative and occurrence
records with their date fields ISO-formatted, and an empty relatives or
occurrences list as a present empty array rather than an omitted key. -/
theorem employees_body_always_complete (f : EmployeesFields)
    (r : Relative) (o : Occurrence) :
    (Employees.body f).map Prod.fst = employeesBodyKeys ∧
    (Employees.body f).lookup "id_card_emission" =
      some (.str f.id_card_emission.isoformat) ∧
    (Employees.body f).lookup "birthday_date" =
      some (.str f.birthday_date.isoformat) ∧
    (Employees.body f).lookup "admission_date" =
      some (.str f.admission_date.isoformat) ∧
    (Employees.body f).lookup "resignation_date" =
      some (.str f.resignation_date.isoformat) ∧
    (Employees.body f).lookup "experience_end_date" =
      some (.str f.experience_end_date.isoformat) ∧
    (Employees.body f).lookup "transfer_date" =
      some (.str f.transfer_date.isoformat) ∧
    (Employees.body f).lookup "relatives" =
      some (.arr (f.relatives.map (fun x => .obj (relativeFields x)))) ∧
    (Employees.body f).lookup "occurrences" =
      some (.arr (f.occurrences.map (fun x => .obj (occurrenceFields x)))) ∧
    (Employees.body { f with relatives := [] }).lookup "relatives" =
      some (.arr []) ∧
    (Employees.body { f with occurrences := [] }).lookup "occurrences" =
      some (.arr []) ∧
    (relativeFields r).lookup "birth_date" =
      some (.str r.birth_date.isoformat) ∧
    (relativeFields r).lookup "rg_issuer_date" =
      some (.str r.rg_issuer_date.isoformat) ∧
    (occurrenceFields o).lookup "start_date" =
      some (.str o.start_date.isoformat) ∧
    (occurrenceFields o).lookup "end_date" =
      some (.str o.end_date.isoformat) := by
  refine ⟨rfl, rfl, rfl, rfl, rfl, rfl, rfl, ?_, ?_, rfl, rfl, rfl, rfl,
    rfl, rfl⟩
  · rw [show (Employees.body f).lookup "relatives" =
        some (.arr ((f.relatives.filter (fun _ => !f.relatives.isEmpty)).map
          (fun x => JsonVal.obj (relativeFields x)))) from rfl,
      filter_const_of_nonempty]
  · rw [show (Employees.body f).lookup "occurrences" =
        some (.arr ((f.occurrences.filter (fun _ => !f.occurrences.isEmpty)).map
          (fun x => JsonVal.obj (occurrenceFields x)))) from rfl,
      filter_const_of_nonempty]

end TuttoApi
